import Mathlib

/-!
Shallow embedding of `tools/update_init_file.py` (the Export List Updater).

The script reads the library's `__init__.py`, locates the existing `__all__`
declaration block, recomputes the list of relevant public attribute names by
filtering the library's top-level namespace, and splices the sorted list back
into the file (the actual write is delegated to an external formatter).

Modelling conventions:
- A Python runtime value is abstracted to exactly the observations the script
  makes of it (`PyVal` below).  Distinct objects with identical observations
  are told apart by `oid`.
- The module-global mutable set `_TYPING_CONSTRUCTS` and the ambient inputs
  (`_typing.__dict__`, `Path.cwd()`) become explicit parameters; the functions
  return the updated set where the script mutates the global.
- `str.startswith` is code-point-sequence prefix testing, embedded via
  `List.isPrefixOf` on the character data.
- Fallible steps (`hash(...)` raising `TypeError`, the two `assert`s) become
  `Option`: `hashValue = none` is a raising hash, and
  `update__all__variable ... = none` is the assertion failure, in which case
  nothing is ever handed to the formatter, i.e. no write happens.
-/

namespace UpdateInitFile

/-- A Python runtime value, abstracted to the observations made by
`tools/update_init_file.py`:

- `oid`: object identity, to distinguish objects that agree on everything else;
- `isFalse`: the value is the boolean `False` object (which is what
  `typing.TYPE_CHECKING` evaluates to at runtime, so `attr is TYPE_CHECKING`
  holds exactly for this value);
- `hashValue`: `some n` when `hash(v)` returns the integer `n`, `none` when
  `hash(v)` raises `TypeError`;
- `deprecatedAttr`: truthiness of `getattr_static(v, "_deprecated", False)`;
- `dunderDeprecatedAttr`: truthiness of `getattr_static(v, "__deprecated__", False)`;
- `isMod`: `inspect.ismodule(v)`;
- `fileAttr`: `some p` when `getattr_static(v, "__file__", ...)` finds the
  attribute with value `p`, `none` when the attribute is absent (the script
  supplies the default `""` in that case). -/
structure PyVal where
  oid : Nat
  isFalse : Bool
  hashValue : Option Int
  deprecatedAttr : Bool
  dunderDeprecatedAttr : Bool
  isMod : Bool
  fileAttr : Option String
deriving DecidableEq

/-- Embedding of `str.startswith`: the pattern's code points are a prefix of
the subject's code points. -/
def startswith (s pat : String) : Bool :=
  pat.data.isPrefixOf s.data

/-- Embedding of `_is_hashable` (source lines 110-115):
`try: return bool(hash(obj)); except TypeError: return False`.
Note that this is `bool(hash(obj))`, not `True`: a successful hash of `0`
yields `False`. -/
def _is_hashable (obj : PyVal) : Bool :=
  match obj.hashValue with
  | none => false
  | some n => decide (n ≠ 0)

/-- Embedding of `_is_relevant` (source lines 118-134), with the module-global
set `_TYPING_CONSTRUCTS` and `str(Path.cwd())` passed explicitly as
`constructs` and `cwd`. -/
def _is_relevant (constructs : List PyVal) (cwd : String) (attr : PyVal)
    (name : String) : Bool :=
  if attr.deprecatedAttr
      || attr.isFalse
      || (_is_hashable attr && decide (attr ∈ constructs))
      || (name == "pd" || name == "jsonschema")
      || attr.dunderDeprecatedAttr then
    false
  else if attr.isMod then
    startswith (attr.fileAttr.getD "") cwd
  else
    true

/-- Embedding of the `_TYPING_CONSTRUCTS.update(...)` step of
`relevant_attributes` (source lines 95-101): add every value of
`_typing.__dict__` whose name does not start with `"__"` and which passes
`_is_hashable`.  The Python set union only ever adds elements; as the model
only observes membership, appending is a faithful rendering. -/
def extendTypingConstructs (constructs : List PyVal)
    (typingNS : List (String × PyVal)) : List PyVal :=
  constructs
    ++ (typingNS.filter
          (fun kv => !(startswith kv.1 "__") && _is_hashable kv.2)).map Prod.snd

/-- Embedding of `relevant_attributes` (source lines 80-107).  `typingNS` is
`_typing.__dict__`, `constructs` the value of `_TYPING_CONSTRUCTS` on entry,
`cwd` is `str(Path.cwd())`, and `ns` the namespace argument, all as ordered
association lists reflecting dict iteration order.  Returns the sorted name
list together with the extended `_TYPING_CONSTRUCTS` (the script mutates the
global in place). -/
def relevant_attributes (typingNS : List (String × PyVal))
    (constructs : List PyVal) (cwd : String) (ns : List (String × PyVal)) :
    List String × List PyVal :=
  let constructs2 := extendTypingConstructs constructs typingNS
  let names :=
    (ns.filter
        (fun p => !(startswith p.1 "_") && _is_relevant constructs2 cwd p.2 p.1)).map
      Prod.fst
  (List.insertionSort (· ≤ ·) names, constructs2)

/-- Embedding of the boundary-locating loop of `update__all__variable`
(source lines 57-64): iterate over `enumerate(lines)`, remembering the index
of the most recent line starting with `"__all__ ="`; on the first subsequent
line starting with `"]"`, stop with both indices.  `none` means at least one
of the two `assert`s (lines 65-66) fails. -/
def findDefinitionLines : List (Nat × String) → Option Nat → Option (Nat × Nat)
  | [], _ => none
  | (idx, line) :: rest, first =>
    if startswith line "__all__ =" then
      findDefinitionLines rest (some idx)
    else
      match first with
      | some i =>
          if startswith line "]" then some (i, idx)
          else findDefinitionLines rest (some i)
      | none => findDefinitionLines rest none

/-- Python `repr` of a short identifier string (no embedded quotes), as used
by the f-string rendering of a list of names. -/
def pyRepr (s : String) : String := "\x27" ++ s ++ "\x27"

/-- Rendering of a Python list of strings inside an f-string. -/
def renderList (names : List String) : String :=
  "[" ++ String.intercalate ", " (names.map pyRepr) ++ "]"

/-- Embedding of `update__all__variable` (source lines 40-77) from the point
where the file's lines are in hand.  The result is the line sequence handed to
`ruff.write_lint_format`; `none` means an `assert` failed first, so the
formatter is never invoked and the file on disk is untouched. -/
def update__all__variable (typingNS : List (String × PyVal))
    (constructs : List PyVal) (cwd : String) (ns : List (String × PyVal))
    (lines : List String) : Option (List String) :=
  match findDefinitionLines lines.enum none with
  | none => none
  | some (first, last) =>
      some
        (lines.take first
          ++ ["__all__ = "
                ++ renderList (relevant_attributes typingNS constructs cwd ns).1]
          ++ lines.drop (last + 1))

/-- Model of the Python integer `0`: hashing succeeds with `hash(0) = 0`, and
`0` carries none of the marker attributes the script inspects. -/
def zeroIntVal : PyVal :=
  { oid := 0, isFalse := false, hashValue := some 0, deprecatedAttr := false,
    dunderDeprecatedAttr := false, isMod := false, fileAttr := none }

/-- Model of a hashable typing construct (for example a `TypeVar`) with a
nonzero hash. -/
def typeVarVal : PyVal :=
  { oid := 1, isFalse := false, hashValue := some 101, deprecatedAttr := false,
    dunderDeprecatedAttr := false, isMod := false, fileAttr := none }

/-- Model of an ordinary public class, with no marker attributes. -/
def chartVal : PyVal :=
  { oid := 2, isFalse := false, hashValue := some 202, deprecatedAttr := false,
    dunderDeprecatedAttr := false, isMod := false, fileAttr := none }

/-- Model of a sub-module of the library whose `__file__` sits below the
working directory `/repo`. -/
def themesModVal : PyVal :=
  { oid := 3, isFalse := false, hashValue := some 303, deprecatedAttr := false,
    dunderDeprecatedAttr := false, isMod := true,
    fileAttr := some "/repo/altair/themes.py" }

/-- Model of a deprecated object: `getattr_static(v, "_deprecated", False)`
is truthy. -/
def oldChartVal : PyVal :=
  { oid := 4, isFalse := false, hashValue := some 404, deprecatedAttr := true,
    dunderDeprecatedAttr := false, isMod := false, fileAttr := none }

/-- Model of the boolean `False` object (and hence of `typing.TYPE_CHECKING`
at runtime): `hash(False) = 0`. -/
def runtimeFalseVal : PyVal :=
  { oid := 5, isFalse := true, hashValue := some 0, deprecatedAttr := false,
    dunderDeprecatedAttr := false, isMod := false, fileAttr := none }

/-- Soundness of the boundary scan: whenever `findDefinitionLines` run over
`enumerate` of a suffix of `lines` returns a pair `(i, j)` (given a correct
memory of a previously seen `__all__ =` line), then `i < j`, both indices are
in range, line `i` starts with `"__all__ ="` and line `j` starts with
`"]"`. -/
theorem findDefinitionLines_sound (lines : List String) :
    ∀ (rest : List String) (idx : Nat) (first : Option Nat) (i j : Nat),
      rest = lines.drop idx →
      (∀ i0, first = some i0 →
        i0 < idx ∧ i0 < lines.length ∧
          startswith (lines.getD i0 "") "__all__ =" = true) →
      findDefinitionLines (List.enumFrom idx rest) first = some (i, j) →
      i < j ∧ i < lines.length ∧ j < lines.length ∧
        startswith (lines.getD i "") "__all__ =" = true ∧
        startswith (lines.getD j "") "]" = true := by
  intro rest
  induction rest with
  | nil =>
      intro idx first i j hdrop hinv h
      simp [List.enumFrom, findDefinitionLines] at h
  | cons l rest2 ih =>
      intro idx first i j hdrop hinv h
      have hq : lines[idx]? = some l := by
        have h0 : (lines.drop idx)[0]? = some l := by rw [← hdrop]; simp
        rwa [List.getElem?_drop, Nat.add_zero] at h0
      have hlen : idx < lines.length := by
        by_contra hc
        rw [List.getElem?_eq_none (Nat.le_of_not_lt hc)] at hq
        exact Option.noConfusion hq
      have hgetD : lines.getD idx "" = l := by
        rw [List.getD_eq_getElem?_getD, hq]; rfl
      have hdrop2 : rest2 = lines.drop (idx + 1) := by
        have h1 : (lines.drop idx).tail = rest2 := by rw [← hdrop]; rfl
        rw [List.tail_drop] at h1
        exact h1.symm
      rw [List.enumFrom] at h
      cases first with
      | none =>
          simp only [findDefinitionLines] at h
          by_cases hs : startswith l "__all__ =" = true
          · rw [if_pos hs] at h
            refine ih (idx + 1) (some idx) i j hdrop2 ?_ h
            intro i0 hi0
            have hii : i0 = idx := by injection hi0 with h2; exact h2.symm
            subst hii
            exact ⟨Nat.lt_succ_self i0, hlen, by rw [hgetD]; exact hs⟩
          · rw [if_neg hs] at h
            refine ih (idx + 1) none i j hdrop2 ?_ h
            intro i0 hi0
            exact Option.noConfusion hi0
      | some i0 =>
          obtain ⟨hlt, hi0len, hdecl⟩ := hinv i0 rfl
          simp only [findDefinitionLines] at h
          by_cases hs : startswith l "__all__ =" = true
          · rw [if_pos hs] at h
            refine ih (idx + 1) (some idx) i j hdrop2 ?_ h
            intro i1 hi1
            have hii : i1 = idx := by injection hi1 with h2; exact h2.symm
            subst hii
            exact ⟨Nat.lt_succ_self i1, hlen, by rw [hgetD]; exact hs⟩
          · rw [if_neg hs] at h
            by_cases hb : startswith l "]" = true
            · rw [if_pos hb] at h
              have h3 : (i0, idx) = (i, j) := by injection h with h4
              have hi : i0 = i := congrArg Prod.fst h3
              have hj : idx = j := congrArg Prod.snd h3
              subst hi; subst hj
              exact ⟨hlt, hi0len, hlen, hdecl, by rw [hgetD]; exact hb⟩
            · rw [if_neg hb] at h
              refine ih (idx + 1) (some i0) i j hdrop2 ?_ h
              intro i1 hi1
              have hii : i1 = i0 := by injection hi1 with h2; exact h2.symm
              subst hii
              exact ⟨Nat.lt_succ_of_lt hlt, hi0len, hdecl⟩

/-- The relevance predicate observes the exclusion set only through
membership of the value under test. -/
theorem _is_relevant_of_mem_iff (constructs constructs2 : List PyVal)
    (cwd : String) (v : PyVal) (name : String)
    (h : v ∈ constructs ↔ v ∈ constructs2) :
    _is_relevant constructs cwd v name = _is_relevant constructs2 cwd v name := by
  simp only [_is_relevant, decide_eq_decide.mpr h]

/-- Either deprecation marker forces the relevance predicate to `false`. -/
theorem _is_relevant_false_of_deprecated (constructs : List PyVal)
    (cwd : String) (v : PyVal) (name : String)
    (h : v.deprecatedAttr = true ∨ v.dunderDeprecatedAttr = true) :
    _is_relevant constructs cwd v name = false := by
  rcases h with h | h <;> simp [_is_relevant, h]

/-- A singleton namespace whose sole value the predicate rejects (for every
exclusion set) filters to the empty name list. -/
theorem relevant_attributes_singleton_nil (typingNS : List (String × PyVal))
    (constructs : List PyVal) (cwd : String) (name : String) (v : PyVal)
    (h : ∀ S : List PyVal, _is_relevant S cwd v name = false) :
    (relevant_attributes typingNS constructs cwd [(name, v)]).1 = [] := by
  simp [relevant_attributes, h, List.insertionSort]

/-- Claim C1, counterexample to the claim as stated.  The Python integer `0`
hashes successfully (`hash(0) = 0`), yet `_is_hashable` returns `false`
(because the source returns `bool(hash(obj))`), so even when the value is a
member of the exclusion set the membership test is skipped and the value is
judged relevant — contradicting "for every value whose hash computation
succeeds without raising, membership in the exclusion set is tested and
membership causes exclusion" and the stated equivalence for the guard. -/
theorem hashability_guard_cex :
    _is_hashable zeroIntVal = false ∧ zeroIntVal.hashValue = some 0 ∧
    zeroIntVal ∈ [zeroIntVal] ∧
    _is_relevant [zeroIntVal] "/repo" zeroIntVal "config" = true := by decide

/-- Claim C1, amended.  The hashability guard returns `true` if and only if
hashing succeeds with a truthy (nonzero) hash value; a value failing the
guard is treated as not excludable by membership (the predicate behaves
exactly as with an empty exclusion set, and no error propagates), while a
value passing the guard that is a member of the exclusion set is excluded. -/
theorem hashability_guard_amended (constructs : List PyVal) (cwd : String)
    (v : PyVal) (name : String) :
    (_is_hashable v = true ↔ ∃ n, v.hashValue = some n ∧ n ≠ 0) ∧
    (_is_hashable v = false →
      _is_relevant constructs cwd v name = _is_relevant [] cwd v name) ∧
    (_is_hashable v = true → v ∈ constructs →
      _is_relevant constructs cwd v name = false) := by
  refine ⟨?_, ?_, ?_⟩
  · cases hv : v.hashValue with
    | none => simp [_is_hashable, hv]
    | some n => simp [_is_hashable, hv]
  · intro h
    simp [_is_relevant, h]
  · intro h hmem
    simp [_is_relevant, h, hmem]

/-- Claim C2, counterexample to the claim as stated.  The typing-support
namespace binds a hashable value under the name `_x`, which starts with the
single-underscore internal-prefix convention used for the primary namespace,
yet the value is still added to the exclusion set: the source's extension
step tests `k.startswith("__")`, a double underscore, not the same prefix. -/
theorem typing_extension_cex :
    startswith "_x" "_" = true ∧ _is_hashable typeVarVal = true ∧
    typeVarVal ∉ ([] : List PyVal) ∧
    typeVarVal ∈ (relevant_attributes [("_x", typeVarVal)] [] "/repo" []).2 := by
  decide

/-- Claim C2, amended.  `relevant_attributes` extends the exclusion set with
exactly those values of the typing-support namespace that are hashable and
whose names do not start with a double underscore `"__"` (the dunder
convention), which differs from the single-underscore prefix used to skip
names of the primary namespace. -/
theorem typing_extension_amended (typingNS : List (String × PyVal))
    (constructs : List PyVal) (cwd : String) (ns : List (String × PyVal))
    (v : PyVal) :
    v ∈ (relevant_attributes typingNS constructs cwd ns).2 ↔
      v ∈ constructs ∨
        ∃ k, (k, v) ∈ typingNS ∧ startswith k "__" = false ∧
          _is_hashable v = true := by
  simp only [relevant_attributes, extendTypingConstructs, List.mem_append,
    List.mem_map, List.mem_filter, Bool.and_eq_true, Bool.not_eq_true']
  constructor
  · rintro (h | ⟨⟨k, w⟩, ⟨hmem, hpre, hhash⟩, rfl⟩)
    · exact Or.inl h
    · exact Or.inr ⟨k, hmem, hpre, hhash⟩
  · rintro (h | ⟨k, hmem, hpre, hhash⟩)
    · exact Or.inl h
    · exact Or.inr ⟨(k, v), ⟨hmem, hpre, hhash⟩, rfl⟩

/-- Claim C3.  If no line of the file starts with `"__all__ ="`, or no line
starting with `"]"` comes after a line starting with `"__all__ ="`, then
`update__all__variable` stops at an assertion (result `none`): no new line
sequence is produced and nothing is handed to the formatter, so the file on
disk is unchanged. -/
theorem missing_boundaries_no_write (typingNS : List (String × PyVal))
    (constructs : List PyVal) (cwd : String) (ns : List (String × PyVal))
    (lines : List String)
    (h : (∀ l ∈ lines, startswith l "__all__ =" = false) ∨
      (∀ i j, i < j → j < lines.length →
        startswith (lines.getD i "") "__all__ =" = true →
        startswith (lines.getD j "") "]" = false)) :
    update__all__variable typingNS constructs cwd ns lines = none := by
  unfold update__all__variable
  cases hfind : findDefinitionLines lines.enum none with
  | none => rfl
  | some p =>
      obtain ⟨i, j⟩ := p
      obtain ⟨hij, hilen, hjlen, hdecl, hbr⟩ :=
        findDefinitionLines_sound lines lines 0 none i j (by simp)
          (fun i0 h0 => Option.noConfusion h0) hfind
      exfalso
      cases h with
      | inl h1 =>
          have hmem : lines.getD i "" ∈ lines := by
            rw [List.getD_eq_getElem _ _ hilen]
            exact List.getElem_mem hilen
          rw [h1 _ hmem] at hdecl
          exact Bool.noConfusion hdecl
      | inr h2 =>
          rw [h2 i j hij hjlen hdecl] at hbr
          exact Bool.noConfusion hbr

/-- Claim C3 witness: a file with no `__all__ =` line at all aborts with no
output. -/
theorem missing_boundaries_no_write_witness :
    update__all__variable [] [] "/repo" [] ["from x", "y = 1"] = none :=
  missing_boundaries_no_write [] [] "/repo" [] ["from x", "y = 1"]
    (Or.inl (by decide))

/-- Claim C4.  On a successful run the line sequence handed to the formatter
is exactly: every line strictly before the opening-boundary line (which
starts with `"__all__ ="`), unchanged and in order; then the single new
declaration line; then every line strictly after the closing-boundary line
(which starts with `"]"`), unchanged and in order.  Both boundary lines and
everything between them are dropped and nothing else is altered. -/
theorem splice_preserves_outside_lines (typingNS : List (String × PyVal))
    (constructs : List PyVal) (cwd : String) (ns : List (String × PyVal))
    (lines out : List String)
    (h : update__all__variable typingNS constructs cwd ns lines = some out) :
    ∃ i j, i < j ∧ i < lines.length ∧ j < lines.length ∧
      startswith (lines.getD i "") "__all__ =" = true ∧
      startswith (lines.getD j "") "]" = true ∧
      out = lines.take i
        ++ ["__all__ = "
              ++ renderList (relevant_attributes typingNS constructs cwd ns).1]
        ++ lines.drop (j + 1) := by
  unfold update__all__variable at h
  cases hfind : findDefinitionLines lines.enum none with
  | none => rw [hfind] at h; exact Option.noConfusion h
  | some p =>
      obtain ⟨i, j⟩ := p
      rw [hfind] at h
      obtain ⟨hij, hilen, hjlen, hdecl, hbr⟩ :=
        findDefinitionLines_sound lines lines 0 none i j (by simp)
          (fun i0 h0 => Option.noConfusion h0) hfind
      refine ⟨i, j, hij, hilen, hjlen, hdecl, hbr, ?_⟩
      exact (Option.some.injEq _ _).mp h |>.symm

/-- Claim C4 witness: on a five-line file the block between the boundaries is
replaced and the surrounding lines pass through untouched. -/
theorem splice_preserves_outside_lines_witness :
    ∃ i j, i < j ∧
      i < (["top", "__all__ = [", "  old,", "]", "bottom"] : List String).length ∧
      j < (["top", "__all__ = [", "  old,", "]", "bottom"] : List String).length ∧
      startswith ((["top", "__all__ = [", "  old,", "]", "bottom"] :
        List String).getD i "") "__all__ =" = true ∧
      startswith ((["top", "__all__ = [", "  old,", "]", "bottom"] :
        List String).getD j "") "]" = true ∧
      (["top", "__all__ = [\x27Chart\x27]", "bottom"] : List String)
        = (["top", "__all__ = [", "  old,", "]", "bottom"] : List String).take i
          ++ ["__all__ = "
                ++ renderList (relevant_attributes [] [] "/repo"
                      [("Chart", chartVal)]).1]
          ++ (["top", "__all__ = [", "  old,", "]", "bottom"] :
              List String).drop (j + 1) :=
  splice_preserves_outside_lines [] [] "/repo" [("Chart", chartVal)]
    ["top", "__all__ = [", "  old,", "]", "bottom"]
    ["top", "__all__ = [\x27Chart\x27]", "bottom"] (by decide)

/-- Claim C5.  The name list returned by `relevant_attributes` is sorted in
the standard case-sensitive code-point order on strings, and it is
deterministic in the namespace snapshot: any reordering (permutation) of the
namespace's iteration order yields the same list. -/
theorem relevant_attributes_sorted_deterministic
    (typingNS : List (String × PyVal)) (constructs : List PyVal) (cwd : String)
    (ns ns2 : List (String × PyVal)) (h : ns.Perm ns2) :
    List.Sorted (· ≤ ·) (relevant_attributes typingNS constructs cwd ns).1 ∧
    (relevant_attributes typingNS constructs cwd ns).1
      = (relevant_attributes typingNS constructs cwd ns2).1 := by
  constructor
  · exact List.sorted_insertionSort _ _
  · apply List.eq_of_perm_of_sorted (r := ((· ≤ ·) : String → String → Prop))
    · refine ((List.perm_insertionSort _ _).trans ?_).trans
        (List.perm_insertionSort _ _).symm
      exact (h.filter _).map Prod.fst
    · exact List.sorted_insertionSort _ _
    · exact List.sorted_insertionSort _ _

/-- Claim C5 witness: a two-entry namespace given in both orders. -/
theorem relevant_attributes_sorted_deterministic_witness :
    List.Sorted (· ≤ ·)
      (relevant_attributes [] [] "/repo"
        [("b", chartVal), ("a", typeVarVal)]).1 ∧
    (relevant_attributes [] [] "/repo" [("b", chartVal), ("a", typeVarVal)]).1
      = (relevant_attributes [] [] "/repo"
          [("a", typeVarVal), ("b", chartVal)]).1 :=
  relevant_attributes_sorted_deterministic [] [] "/repo"
    [("b", chartVal), ("a", typeVarVal)] [("a", typeVarVal), ("b", chartVal)]
    (List.Perm.swap ("a", typeVarVal) ("b", chartVal) [])

/-- Claim C6.  For a value that is a module object and escapes every earlier
exclusion rule, relevance holds if and only if the statically retrieved
`__file__` attribute exists and is a path starting with the current working
directory (`cwd` is `str(Path.cwd())`, always a nonempty absolute path); in
particular a module without the attribute, or whose path lies outside `cwd`,
is excluded. -/
theorem submodule_relevance_iff_file_in_cwd (constructs : List PyVal)
    (cwd : String) (v : PyVal) (name : String) (hcwd : cwd ≠ "")
    (hdep : v.deprecatedAttr = false) (hfalse : v.isFalse = false)
    (hmem : (_is_hashable v && decide (v ∈ constructs)) = false)
    (hpd : name ≠ "pd") (hjs : name ≠ "jsonschema")
    (hddep : v.dunderDeprecatedAttr = false) (hmod : v.isMod = true) :
    _is_relevant constructs cwd v name = true ↔
      ∃ p, v.fileAttr = some p ∧ startswith p cwd = true := by
  have hcond : (v.deprecatedAttr
      || v.isFalse
      || (_is_hashable v && decide (v ∈ constructs))
      || (name == "pd" || name == "jsonschema")
      || v.dunderDeprecatedAttr) = false := by
    simp [hdep, hfalse, hmem, hddep, hpd, hjs]
  rw [_is_relevant, hcond]
  simp only [Bool.false_eq_true, if_false, hmod, if_true]
  cases hf : v.fileAttr with
  | none =>
      simp only [Option.getD_none]
      constructor
      · intro habs
        exfalso
        have hnil : cwd.data.isPrefixOf ([] : List Char) = true := habs
        cases hc : cwd.data with
        | nil => exact hcwd (by cases cwd; simp_all)
        | cons c cs => rw [hc] at hnil; exact Bool.noConfusion hnil
      · rintro ⟨p, hp, _⟩
        exact Option.noConfusion hp
  | some p =>
      simp only [Option.getD_some]
      constructor
      · intro hp
        exact ⟨p, rfl, hp⟩
      · rintro ⟨q, hq, hqs⟩
        have hqp : q = p := by injection hq with h2; exact h2.symm
        rwa [hqp] at hqs

/-- Claim C6 witness: a library sub-module recorded under `/repo` is judged
by exactly the file-path criterion. -/
theorem submodule_relevance_iff_file_in_cwd_witness :
    _is_relevant [] "/repo" themesModVal "themes" = true ↔
      ∃ p, themesModVal.fileAttr = some p ∧ startswith p "/repo" = true :=
  submodule_relevance_iff_file_in_cwd [] "/repo" themesModVal "themes"
    (by decide) (by decide) (by decide) (by decide) (by decide) (by decide)
    (by decide) (by decide)

/-- Claim C7.  A value carrying either the static `_deprecated` marker or the
standard `__deprecated__` decoration marker with a truthy value is rejected
by the relevance predicate whatever its name, and a namespace holding only
such a value yields the empty list. -/
theorem deprecated_marker_excluded (typingNS : List (String × PyVal))
    (constructs : List PyVal) (cwd : String) (v : PyVal) (name : String)
    (h : v.deprecatedAttr = true ∨ v.dunderDeprecatedAttr = true) :
    _is_relevant constructs cwd v name = false ∧
    (relevant_attributes typingNS constructs cwd [(name, v)]).1 = [] := by
  refine ⟨_is_relevant_false_of_deprecated constructs cwd v name h, ?_⟩
  exact relevant_attributes_singleton_nil typingNS constructs cwd name v
    (fun S => _is_relevant_false_of_deprecated S cwd v name h)

/-- Claim C7 witness: an object with `_deprecated = True` under a name that
would otherwise qualify. -/
theorem deprecated_marker_excluded_witness :
    _is_relevant [] "/repo" oldChartVal "OldChart" = false ∧
    (relevant_attributes [] [] "/repo" [("OldChart", oldChartVal)]).1 = [] :=
  deprecated_marker_excluded [] [] "/repo" oldChartVal "OldChart"
    (Or.inl (by decide))

/-- Claim C8.  Calling `relevant_attributes` a second time with the same
namespace — starting from the exclusion set the first call left behind —
returns the same name list: re-adding the typing-support values does not
change membership of the exclusion set, and the filter observes only
membership. -/
theorem relevant_attributes_idempotent (typingNS : List (String × PyVal))
    (constructs : List PyVal) (cwd : String) (ns : List (String × PyVal)) :
    (relevant_attributes typingNS
        (relevant_attributes typingNS constructs cwd ns).2 cwd ns).1
      = (relevant_attributes typingNS constructs cwd ns).1 := by
  simp only [relevant_attributes]
  congr 1
  congr 1
  apply List.filter_congr
  intro p hp
  congr 1
  apply _is_relevant_of_mem_iff
  simp only [extendTypingConstructs, List.mem_append]
  tauto

/-- Claim C9.  Because `typing.TYPE_CHECKING` is the boolean `False` at
runtime and the predicate compares with `is`, every namespace entry whose
value is the boolean `False` is rejected, whatever its name, and a namespace
holding only such a binding yields the empty list. -/
theorem false_value_excluded (typingNS : List (String × PyVal))
    (constructs : List PyVal) (cwd : String) (name : String) (v : PyVal)
    (h : v.isFalse = true) :
    _is_relevant constructs cwd v name = false ∧
    (relevant_attributes typingNS constructs cwd [(name, v)]).1 = [] := by
  have hfalse : ∀ S : List PyVal, _is_relevant S cwd v name = false := by
    intro S
    simp [_is_relevant, h]
  exact ⟨hfalse constructs,
    relevant_attributes_singleton_nil typingNS constructs cwd name v hfalse⟩

/-- Claim C9 witness: a flag bound to `False` under an ordinary public name
is still excluded. -/
theorem false_value_excluded_witness :
    _is_relevant [] "/repo" runtimeFalseVal "enable_debug" = false ∧
    (relevant_attributes [] [] "/repo"
        [("enable_debug", runtimeFalseVal)]).1 = [] :=
  false_value_excluded [] [] "/repo" "enable_debug" runtimeFalseVal (by decide)

/-- Claim C10.  The exclusion set only grows: every element of the incoming
set is still in the set `relevant_attributes` returns, every element the call
adds passed the hashability guard, and any hashable member of the resulting
set is excluded by the relevance predicate run against that set — so once a
value has entered, every later call (whose set only extends this one) keeps
excluding it, for any namespace and any name. -/
theorem typing_constructs_only_grow (typingNS : List (String × PyVal))
    (constructs : List PyVal) (cwd : String) (ns : List (String × PyVal)) :
    (∀ v ∈ constructs, v ∈ (relevant_attributes typingNS constructs cwd ns).2) ∧
    (∀ v ∈ (relevant_attributes typingNS constructs cwd ns).2,
        v ∉ constructs → _is_hashable v = true) ∧
    (∀ v name, v ∈ (relevant_attributes typingNS constructs cwd ns).2 →
        _is_hashable v = true →
        _is_relevant (relevant_attributes typingNS constructs cwd ns).2 cwd v
          name = false) := by
  refine ⟨?_, ?_, ?_⟩
  · intro v hv
    simp only [relevant_attributes, extendTypingConstructs, List.mem_append]
    exact Or.inl hv
  · intro v hv hnot
    simp only [relevant_attributes, extendTypingConstructs, List.mem_append,
      List.mem_map, List.mem_filter, Bool.and_eq_true] at hv
    rcases hv with hv | ⟨x, ⟨_, _, hhash⟩, rfl⟩
    · exact absurd hv hnot
    · exact hhash
  · intro v name hv hhash
    simp [_is_relevant, hv, hhash]

end UpdateInitFile
